import Mathlib

/-!
Verification of the tray-popup vehicle-control utility (`src/main.rs`).

The source is a Dioxus desktop app. The parts embedded here:
  - the tray listener thread (anchor-point computation, channel send + unwrap),
  - the coordinate channel's take-once consumer extraction
    (`rx.borrow_mut().take().unwrap()`),
  - the window positioner loop (outer size read, visibility toggle,
    reposition),
  - the session/vehicle reactive state (`SESSION_ID`, `VEHICLES` atoms, the
    `use_effect` on `session_id`, the `Vehicle` view's lookup, lock init and
    lock/unlock click handler).

Screen coordinates are `f64` in the source; they are modelled as `ℚ`: the
claims concern which arithmetic expression is computed (midpoints and halved
widths), not floating-point rounding.
-/

/-- A 2D screen point, `(f64, f64)` in the source. -/
abbrev Point : Type := ℚ × ℚ

/-- The bounding rectangle carried by a tray-icon click event
(`event.icon_rect` with fields `left`, `right`, `bottom`, `top`). -/
structure IconRect where
  left : ℚ
  right : ℚ
  bottom : ℚ
  top : ℚ
deriving DecidableEq

/-- The anchor point the tray listener computes from a click event
(main.rs lines 98-101):
`(icon_rect.left + (icon_rect.right - icon_rect.left) / 2., icon_rect.bottom)`. -/
def tray_anchor (r : IconRect) : Point :=
  (r.left + (r.right - r.left) / 2, r.bottom)

/-- One iteration of the tray listener loop, restricted to what it pushes into
the coordinate channel: if `tray_channel.try_recv()` yielded a click event, the
anchor point is sent; otherwise nothing is sent this iteration. -/
def tray_iteration_sends (tray_event : Option IconRect) : List Point :=
  match tray_event with
  | none => []
  | some r => [tray_anchor r]

/-- The window state the positioner task touches: visibility, outer top-left
position, and outer size. -/
structure WindowState where
  visible : Bool
  position : ℚ × ℚ
  width : ℚ
  height : ℚ
deriving DecidableEq

/-- The window launch configuration (main.rs lines 47-52):
`WindowBuilder::new().with_resizable(false).with_inner_size(400, 400)
.with_decorations(false).with_visible(false)`. -/
structure WindowConfig where
  resizable : Bool
  inner_size : ℚ × ℚ
  decorations : Bool
  visible : Bool
deriving DecidableEq

def launch_config : WindowConfig :=
  { resizable := false
    inner_size := (400, 400)
    decorations := false
    visible := false }

/-- The body of the positioner loop for one received point (main.rs 71-75):
```
let size = window.outer_size();
window.set_visible(!window.is_visible());
window.set_outer_position(PhysicalPosition::new(x - size.width as f64 / 2., y));
```
The size is read before the toggle, and the reposition is unconditional. -/
def positioner_step (w : WindowState) (p : Point) : WindowState :=
  let size := (w.width, w.height)
  let w1 := { w with visible := !w.visible }
  { w1 with position := (p.1 - size.1 / 2, p.2) }

/-- The positioner task consuming a finite prefix of the point stream:
`while let Some((x, y)) = rx.recv().await { ... }`, one `positioner_step`
per delivered point, in delivery order. -/
def positioner_run (w : WindowState) : List Point → WindowState
  | [] => w
  | p :: ps => positioner_run (positioner_step w p) ps

/-- A window as launched: hidden, at some position, with the configured
400×400 size. -/
def hidden_window : WindowState :=
  { visible := false, position := (0, 0), width := 400, height := 400 }

/-! ## Take-once consumer extraction (main.rs 61-69)

The channel consumer is stored in `RefCell<Some(rx)>`; the positioner future
starts with `rx.borrow_mut().take().unwrap()`. `Option::take` moves the
contents out, leaving `None`; `unwrap` on the emptied slot panics. -/

/-- Outcome of an `unwrap` on an `Option`: the contained value, or a panic. -/
inductive UnwrapResult (α : Type) where
  | ok (a : α)
  | panicked
deriving DecidableEq

/-- `Option::take`: returns the current contents and leaves `None` behind. -/
def rc_take {α : Type} (slot : Option α) : Option α × Option α :=
  (slot, none)

/-- `slot.take().unwrap()`: extraction result plus the slot's new state. -/
def take_unwrap {α : Type} (slot : Option α) : UnwrapResult α × Option α :=
  match rc_take slot with
  | (some c, slot1) => (UnwrapResult.ok c, slot1)
  | (none, slot1) => (UnwrapResult.panicked, slot1)

/-- The results of `n` successive `take().unwrap()` attempts on the slot. -/
def take_unwrap_seq {α : Type} (slot : Option α) : Nat → List (UnwrapResult α)
  | 0 => []
  | n + 1 =>
    let r := take_unwrap slot
    r.1 :: take_unwrap_seq r.2 n

/-! ## Channel send in the tray listener (main.rs 97-104)

`tx.send((..anchor..)).unwrap()`: `UnboundedSender::send` fails exactly when
the receiver has been dropped (channel closed); the `.unwrap()` turns that
failure into a panic of the listener thread. -/

inductive SendError where
  | closed
deriving DecidableEq

/-- `tx.send(p)`: succeeds unless the receiver has been dropped. -/
def channel_send (receiver_dropped : Bool) (p : Point) : Except SendError Unit :=
  if receiver_dropped then Except.error SendError.closed else Except.ok ()

inductive LoopOutcome where
  | continues
  | panics
deriving DecidableEq

/-- What happens to the tray listener loop when a click event is handled:
the anchor is sent and the send's result is unwrapped. On `Ok` the loop body
finishes (`println!`) and the loop continues; on `Err` the `.unwrap()` panics
the listener thread. -/
def tray_iteration_on_send (receiver_dropped : Bool) (r : IconRect) : LoopOutcome :=
  match channel_send receiver_dropped (tray_anchor r) with
  | Except.ok _ => LoopOutcome.continues
  | Except.error _ => LoopOutcome.panics

/-! ## Session state and views (main.rs 131-260) -/

/-- `car_api::Vehicle`, as used by the views: key, nickname, model, trim. -/
structure Vehicle where
  vehicle_key : String
  nick_name : String
  model_name : String
  trim : String
deriving DecidableEq

/-- Whether a render of the `Vehicles` component re-runs the
`use_effect(cx, &session_id, ...)` body: Dioxus runs the effect on the first
render and whenever the dependency value differs (by equality) from the
previously seen one. `prev = none` means no previous render. -/
def use_effect_fires (prev : Option (Option String)) (dep : Option String) : Bool :=
  prev != some dep

/-- Whether a render actually issues the vehicle-list fetch: the effect body
is `if let Some(session_id) = session_id { client.vehicles(..).await; ... }`,
so a fetch happens only when the effect re-runs and the token is present. -/
def fetch_fires (prev : Option (Option String)) (dep : Option String) : Bool :=
  use_effect_fires prev dep && dep.isSome

/-- Fetch decisions over a sequence of rendered token values, threading the
previously seen dependency value. -/
def fetch_trace_aux (prev : Option (Option String)) :
    List (Option String) → List Bool
  | [] => []
  | d :: ds => fetch_fires prev d :: fetch_trace_aux (some d) ds

/-- Fetch decisions for a token sequence starting from the first render. -/
def fetch_trace (deps : List (Option String)) : List Bool :=
  fetch_trace_aux none deps

/-- Rendering outcome of the `Vehicle` detail view's body. -/
inductive RenderOutcome where
  | empty
  | rendered (v : Vehicle)
  | panicked
deriving DecidableEq

/-- The `Vehicle` detail view (main.rs 217-259): when `VEHICLES` is `None` the
view renders nothing (`else { None }`); when it is `Some`, the vehicle is
looked up with `vehicles.iter().find(|v| &v.vehicle_key == id).unwrap()`,
which panics when the id is absent. -/
def vehicle_view (vehicles : Option (List Vehicle)) (id : String) : RenderOutcome :=
  match vehicles with
  | none => RenderOutcome.empty
  | some vs =>
    match vs.find? (fun vehicle => vehicle.vehicle_key == id) with
    | some v => RenderOutcome.rendered v
    | none => RenderOutcome.panicked

/-- The lock-flag initializer in the `Vehicle` view, main.rs line 222:
`use_signal(cx, || Some(true))`. The parameter is the selected vehicle's
actual current locked state; the closure ignores it (the `Vehicle` record
carries no locked field) and always produces `Some(true)`. -/
def lock_init_for (vehicle_currently_locked : Bool) : Option Bool :=
  some true

/-- Modelled from the spec's words, for comparison with `lock_init_for`:
"lock-state flag starts `Some(current_locked_state)`", i.e. `Some(true)` iff
the vehicle is currently locked. -/
def spec_lock_init (vehicle_currently_locked : Bool) : Option Bool :=
  some vehicle_currently_locked

/-- Outcome of the awaited remote lock/unlock call. The `car_api` calls
return bare values (`login` returns the session string directly, main.rs
156-159), so a remote failure does not return an error value: it panics
inside the awaited call. -/
inductive CallOutcome where
  | success
  | failure
deriving DecidableEq

/-- The lock-flag values written by the `Vehicle` view's button handler
(main.rs 232-245), in order: `lock.set(None)` at the click, then the
`client.unlock`/`client.lock` call is awaited. On success it returns and
`lock.set(Some(!is_locked))` runs; on failure the call panics, the handler's
future aborts before the resolving set, and the busy `None` stays the last
value ever written. -/
def lock_handler_trace (is_locked : Bool) (outcome : CallOutcome) :
    List (Option Bool) :=
  let busy : Option Bool := none
  match outcome with
  | CallOutcome.success => [busy, some (!is_locked)]
  | CallOutcome.failure => [busy]

/-- The unwrap on the session token in the click handler, main.rs line 237:
`session_id.as_ref().unwrap()`. -/
def session_unwrap : Option String → UnwrapResult String
  | some tok => UnwrapResult.ok tok
  | none => UnwrapResult.panicked

/-! ## Reachable session states (main.rs 150-189)

The only writes to the `SESSION_ID` atom are its initializer (`None`) and
`set_session_id(Some(session_id))` in `Login`'s submit handler; the only
writes to `VEHICLES` are its initializer (`None`) and
`set_vehicles(Some(new_vehicles))` inside the effect body, which only runs
its fetch under `if let Some(session_id) = session_id`. No code path clears
either atom back to `None`. -/

structure AppState where
  session_id : Option String
  vehicles : Option (List Vehicle)
deriving DecidableEq

def initial_state : AppState := { session_id := none, vehicles := none }

/-- One atom write, as the source permits them. -/
inductive AppStep : AppState → AppState → Prop where
  | login (s : AppState) (tok : String) :
      AppStep s { s with session_id := some tok }
  | fetch (s : AppState) (tok : String) (vs : List Vehicle) :
      s.session_id = some tok →
      AppStep s { s with vehicles := some vs }

/-- States reachable from launch through the writes above. -/
inductive Reachable : AppState → Prop where
  | init : Reachable initial_state
  | step {s t : AppState} : Reachable s → AppStep s t → Reachable t

/-! ## Helper lemmas -/

/-- Visibility after a run: each delivered point inverts it, so the result is
the initial visibility xor-ed with the parity of the number of points. -/
theorem positioner_run_visible (ps : List Point) : ∀ w : WindowState,
    (positioner_run w ps).visible = (w.visible ^^ (ps.length % 2 == 1)) := by
  induction ps with
  | nil => intro w; simp [positioner_run]
  | cons p ps ih =>
    intro w
    rcases Nat.mod_two_eq_zero_or_one ps.length with h | h
    · have h1 : (ps.length + 1) % 2 = 1 := by omega
      simp [positioner_run, ih, positioner_step, h, h1]
    · have h1 : (ps.length + 1) % 2 = 0 := by omega
      simp [positioner_run, ih, positioner_step, h, h1]

/-- Repeated `take().unwrap()` on an already-emptied slot panics every time. -/
theorem take_unwrap_seq_none {α : Type} (n : Nat) :
    take_unwrap_seq (none : Option α) n
      = List.replicate n UnwrapResult.panicked := by
  induction n with
  | zero => rfl
  | succ k ih => simp [take_unwrap_seq, take_unwrap, rc_take, ih, List.replicate]

/-- In any reachable state, a fetched vehicle list implies a present session
token: `VEHICLES` is only set after a fetch guarded by `if let Some(..)`, and
no write ever clears `SESSION_ID`. -/
theorem reachable_vehicles_session {s : AppState} (hr : Reachable s) :
    s.vehicles.isSome = true → s.session_id.isSome = true := by
  induction hr with
  | init => intro h; simp [initial_state] at h
  | step _ hstep ih =>
    intro hv
    cases hstep with
    | login tok => simp
    | fetch tok vs htok => simp [htok]

/-! ## Claims -/

/-- Claim C1: for every delivered point `(x, y)` the positioner sets the
window's outer top-left to exactly `(x - w/2, y)`, `w` being the outer width
read at delivery time, and the result does not depend on whether the toggle
showed or hid the window. -/
theorem c1_positioning (w : WindowState) (p : Point) :
    (positioner_step w p).position = (p.1 - w.width / 2, p.2) ∧
    (positioner_step { w with visible := !w.visible } p).position
      = (positioner_step w p).position :=
  ⟨rfl, rfl⟩

/-- Claim C2: a tray click with rect `{left, right, bottom, top}` pushes
exactly the anchor `(left + (right - left)/2, bottom)` into the channel; the
rect `{left:100, right:140, bottom:500}` yields `(120, 500)`. -/
theorem c2_anchor (r : IconRect) :
    tray_iteration_sends (some r)
        = [(r.left + (r.right - r.left) / 2, r.bottom)] ∧
    tray_anchor { left := 100, right := 140, bottom := 500, top := 460 }
        = (120, 500) :=
  ⟨rfl, by norm_num [tray_anchor]⟩

/-- Claim C3: the window launches hidden (`with_visible(false)`), and after
`k` delivered points — each inverting the current visibility — the window is
visible iff `k` is odd. -/
theorem c3_toggle_parity (w : WindowState) (ps : List Point)
    (h : w.visible = false) :
    launch_config.visible = false ∧
    ((positioner_run w ps).visible = true ↔ Odd ps.length) := by
  refine ⟨rfl, ?_⟩
  rw [positioner_run_visible ps w, h, Nat.odd_iff]
  simp

/-- Witness for C3: one delivered point on a hidden window leaves it visible. -/
theorem c3_toggle_parity_witness :
    launch_config.visible = false ∧
    ((positioner_run hidden_window [((120 : ℚ), (500 : ℚ))]).visible = true
      ↔ Odd (List.length [((120 : ℚ), (500 : ℚ))])) :=
  c3_toggle_parity hidden_window [(120, 500)] rfl

/-- Claim C4: the consumer slot yields the receiver exactly once; every one of
the `n` further `take().unwrap()` attempts panics instead of yielding a second
consumer. -/
theorem c4_take_once {α : Type} (c : α) (n : Nat) :
    take_unwrap_seq (some c) (n + 1)
      = UnwrapResult.ok c :: List.replicate n UnwrapResult.panicked := by
  simp [take_unwrap_seq, take_unwrap, rc_take, take_unwrap_seq_none]

/-- Claim C5 (code evaluated at the failing input): a tray click handled while
the channel is closed makes the listener thread panic — `tx.send(..).unwrap()`
— rather than log and continue as the spec requires. -/
theorem c5_send_unwrap_panics :
    tray_iteration_on_send true
        { left := 100, right := 140, bottom := 500, top := 460 }
      = LoopOutcome.panics :=
  rfl

/-- Claim C6: over the token sequence `[None, "tok1", "tok1", "tok2"]` the
vehicle-list fetch fires exactly on the `None→"tok1"` and `"tok1"→"tok2"`
transitions (twice in total), and a render whose token is absent never
fetches. -/
theorem c6_edge_sensitive_fetch :
    fetch_trace [none, some "tok1", some "tok1", some "tok2"]
        = [false, true, false, true] ∧
    (fetch_trace [none, some "tok1", some "tok1", some "tok2"]).count true
        = 2 ∧
    ∀ prev : Option (Option String), fetch_fires prev none = false := by
  refine ⟨by decide, by decide, fun prev => ?_⟩
  simp [fetch_fires]

/-- Claim C7 (code evaluated at the failing input): an Unlock click
(`is_locked = true`) whose awaited remote call fails panics before the
resolving `lock.set`, so the last flag value written is the busy `None` —
the flag is never resolved to a `Some(_)`. Only the success outcome ends at
`Some(!is_locked)`. -/
theorem c7_failed_call_leaves_busy :
    (lock_handler_trace true CallOutcome.failure).getLast? = some none ∧
    (lock_handler_trace true CallOutcome.success).getLast?
      = some (some false) :=
  ⟨rfl, rfl⟩

/-- Claim C8 (code evaluated at the failing input): rendering the detail view
for an id absent from the fetched list panics on `find(..).unwrap()` instead
of failing gracefully. -/
theorem c8_unfound_vehicle_panics :
    vehicle_view (some []) "v1" = RenderOutcome.panicked :=
  rfl

/-- Counterexample to claim C9 as stated: for a vehicle whose actual current
locked state is `false`, the initializer still yields `Some(true)`, not
`Some(current_locked_state)`. -/
theorem c9_lock_init_counterexample :
    lock_init_for false ≠ spec_lock_init false := by
  decide

/-- Claim C9 (amended): the lock-state flag starts as `Some(true)`
unconditionally, regardless of the vehicle's actual current locked state. -/
theorem c9_lock_init_constant (vehicle_currently_locked : Bool) :
    lock_init_for vehicle_currently_locked = some true :=
  rfl

/-- Claim C10: in every reachable state in which the lock/unlock handler can
run (the vehicle list is present), the session token is present, so
`session_id.as_ref().unwrap()` succeeds and cannot panic. -/
theorem c10_session_unwrap_safe (s : AppState) (hr : Reachable s)
    (hv : s.vehicles.isSome = true) :
    ∃ tok, session_unwrap s.session_id = UnwrapResult.ok tok := by
  have hs := reachable_vehicles_session hr hv
  cases h : s.session_id with
  | none => rw [h] at hs; simp at hs
  | some tok => exact ⟨tok, rfl⟩

/-- Witness for C10: the state after a login with token `"tok1"` followed by a
fetch of the empty vehicle list is reachable, has the list present, and its
session unwrap succeeds. -/
theorem c10_session_unwrap_safe_witness :
    ∃ tok,
      session_unwrap
          (AppState.session_id
            { session_id := some "tok1", vehicles := some [] })
        = UnwrapResult.ok tok :=
  c10_session_unwrap_safe { session_id := some "tok1", vehicles := some [] }
    (Reachable.step
      (Reachable.step Reachable.init (AppStep.login initial_state "tok1"))
      (AppStep.fetch { session_id := some "tok1", vehicles := none } "tok1" []
        rfl))
    rfl
